import Mathlib

/-!
Shallow embedding of the Google Play reviews fetch pipeline
(`src/app.py` and `src/nasdaq_companies.py`).

The two external collaborators (`google_play_scraper.search` and
`google_play_scraper.reviews_all`) are modelled as oracle functions in an
`Env` record; a raised exception is modelled as an `Except.error` result.
Python dictionaries with optional keys are modelled as structures with
`Option` fields (`none` = key absent); `dict.get(k, d)` becomes
`Option.getD`.  Python truthiness of strings, lists and `None` is made
explicit (`pyOrStr`, `pyTruthyList`).
-/

namespace PlayReviews

/-- Calendar date at year-month-day precision (the `datetime` values carried
in the `at` field of a raw review). -/
structure Date where
  year : Nat
  month : Nat
  day : Nat
deriving DecidableEq, Repr

/-- Python `a or b` for an optional string `a`: `None` and `""` are falsy. -/
def pyOrStr (a : Option String) (b : String) : String :=
  match a with
  | none => b
  | some s => if s = "" then b else s

/-- A raw app listing as returned by the external `search` call.
`appId`, `title` and `developer` are required by the collaborator contract
(the source indexes them directly); `score` and `installs` are read with
`dict.get` defaults. -/
structure RawApp where
  appId : String
  title : String
  developer : String
  score : Option Int
  installs : Option String
deriving DecidableEq, Repr

/-- The filtered app dictionary built by `search_apps_by_developer`. -/
structure AppListing where
  appId : String
  title : String
  developer : String
  score : Int
  installs : String
deriving DecidableEq, Repr

/-- A raw review record as returned by the external `reviews_all` call.
All fields are read with `dict.get`, so all are optional. -/
structure RawReview where
  atDate : Option Date
  score : Option Int
  content : Option String
  userName : Option String
  thumbsUpCount : Option Int
  reviewId : Option String
deriving DecidableEq, Repr

/-- The structured review dictionary built inside `fetch_app_reviews`
(before the company tagging applied by `fetch_developer_reviews`). -/
structure StructuredReview where
  app_id : String
  app_title : String
  review_date : Date
  score : Int
  review_text : String
  reviewer_name : String
  helpful_count : Int
  review_id : String
deriving DecidableEq, Repr

/-- A structured review after `fetch_developer_reviews` has added the
`company_symbol` and `developer_name` keys. -/
structure TaggedReview where
  app_id : String
  app_title : String
  review_date : Date
  score : Int
  review_text : String
  reviewer_name : String
  helpful_count : Int
  review_id : String
  company_symbol : String
  developer_name : String
deriving DecidableEq, Repr

/-- One entry of the `NASDAQ_100_COMPANIES` table:
`[company_name, play_store_developer, subsidiaries]`. -/
structure CompanyEntry where
  company_name : String
  play_store_developer : String
  subsidiaries : List String
deriving DecidableEq, Repr

/-- The dictionary returned by `get_company_info`. -/
structure CompanyInfo where
  symbol : String
  company_name : String
  play_store_developer : String
  subsidiaries : List String
  search_terms : List String
deriving DecidableEq, Repr

/-- The external collaborators.  `search` is keyed by the developer-name
query (the source always passes `n_hits=50`); `reviews_all` is keyed by the
app id (the source always passes `sleep_milliseconds=0, lang='en',
country='us'`).  An `Except.error` models a raised exception. -/
structure Env where
  search : String → Except String (List RawApp)
  reviews_all : String → Except String (List RawReview)

/-- Python `str.upper()` restricted to its ASCII behaviour, modelled as a
per-character map over the string's characters. -/
def pyUpper (s : String) : String :=
  String.mk (s.data.map Char.toUpper)

/-- Python `str.lower()` restricted to its ASCII behaviour. -/
def pyLower (s : String) : String :=
  String.mk (s.data.map Char.toLower)

/-- The static company table of `src/nasdaq_companies.py`, as an association
list (symbol ↦ `[company_name, play_store_developer, subsidiaries]`) in the
source's insertion order. -/
def NASDAQ_100_COMPANIES : List (String × CompanyEntry) := [
  ("AAPL", ⟨"Apple Inc.", "Apple", ["Apple Inc."]⟩),
  ("MSFT", ⟨"Microsoft Corporation", "Microsoft Corporation", ["Microsoft", "LinkedIn Corporation", "Skype Communications", "Mojang Studios", "Activision Publishing"]⟩),
  ("AMZN", ⟨"Amazon.com Inc.", "Amazon Mobile LLC", ["Amazon", "Amazon.com Services LLC", "Twitch Interactive", "Ring", "Whole Foods Market", "IMDb", "Audible"]⟩),
  ("GOOGL", ⟨"Alphabet Inc.", "Google LLC", ["Google", "YouTube", "Waze Mobile", "Nest Labs", "DeepMind"]⟩),
  ("GOOG", ⟨"Alphabet Inc.", "Google LLC", ["Google", "YouTube", "Waze Mobile", "Nest Labs", "DeepMind"]⟩),
  ("META", ⟨"Meta Platforms Inc.", "Meta Platforms Inc.", ["Facebook", "Instagram", "WhatsApp", "Oculus VR"]⟩),
  ("TSLA", ⟨"Tesla Inc.", "Tesla Inc.", ["Tesla"]⟩),
  ("NVDA", ⟨"NVIDIA Corporation", "NVIDIA Corporation", ["NVIDIA"]⟩),
  ("AVGO", ⟨"Broadcom Inc.", "Broadcom Corporation", ["Broadcom"]⟩),
  ("AMD", ⟨"Advanced Micro Devices Inc.", "AMD", ["Advanced Micro Devices"]⟩),
  ("QCOM", ⟨"QUALCOMM Incorporated", "QUALCOMM Incorporated", ["Qualcomm"]⟩),
  ("TXN", ⟨"Texas Instruments Incorporated", "Texas Instruments", ["Texas Instruments"]⟩),
  ("INTC", ⟨"Intel Corporation", "Intel Corporation", ["Intel", "Mobileye"]⟩),
  ("ADBE", ⟨"Adobe Inc.", "Adobe", ["Adobe Systems"]⟩),
  ("CRM", ⟨"Salesforce Inc.", "salesforce.com inc.", ["Salesforce", "Slack Technologies", "Tableau Software", "MuleSoft"]⟩),
  ("INTU", ⟨"Intuit Inc.", "Intuit Inc.", ["Intuit", "Credit Karma", "Mailchimp"]⟩),
  ("WDAY", ⟨"Workday Inc.", "Workday Inc.", ["Workday"]⟩),
  ("TEAM", ⟨"Atlassian Corporation", "Atlassian", ["Atlassian"]⟩),
  ("ADSK", ⟨"Autodesk Inc.", "Autodesk Inc.", ["Autodesk"]⟩),
  ("CRWD", ⟨"CrowdStrike Holdings Inc.", "CrowdStrike Inc.", ["CrowdStrike"]⟩),
  ("PANW", ⟨"Palo Alto Networks Inc.", "Palo Alto Networks", ["Palo Alto Networks"]⟩),
  ("ZS", ⟨"Zscaler Inc.", "Zscaler Inc.", ["Zscaler"]⟩),
  ("CSCO", ⟨"Cisco Systems Inc.", "Cisco Systems Inc.", ["Cisco", "Webex"]⟩),
  ("ORCL", ⟨"Oracle Corporation", "Oracle Corporation", ["Oracle"]⟩),
  ("NFLX", ⟨"Netflix Inc.", "Netflix Inc.", ["Netflix"]⟩),
  ("SHOP", ⟨"Shopify Inc.", "Shopify Inc.", ["Shopify"]⟩),
  ("COST", ⟨"Costco Wholesale Corporation", "Costco Wholesale", ["Costco"]⟩),
  ("BKNG", ⟨"Booking Holdings Inc.", "Booking.com", ["Booking.com", "Priceline", "Kayak", "OpenTable"]⟩),
  ("UBER", ⟨"Uber Technologies Inc.", "Uber Technologies Inc.", ["Uber"]⟩),
  ("DASH", ⟨"DoorDash Inc.", "DoorDash", ["DoorDash"]⟩),
  ("ABNB", ⟨"Airbnb Inc.", "Airbnb Inc.", ["Airbnb"]⟩),
  ("PYPL", ⟨"PayPal Holdings Inc.", "PayPal Inc.", ["PayPal", "Venmo", "Braintree", "Xoom"]⟩),
  ("SQ", ⟨"Block Inc.", "Square Inc.", ["Square", "Cash App", "Afterpay"]⟩),
  ("ZM", ⟨"Zoom Video Communications Inc.", "Zoom", ["Zoom"]⟩),
  ("SNAP", ⟨"Snap Inc.", "Snap Inc.", ["Snapchat"]⟩),
  ("PINS", ⟨"Pinterest Inc.", "Pinterest", ["Pinterest"]⟩),
  ("MTCH", ⟨"Match Group Inc.", "Match Group", ["Tinder", "Hinge", "OkCupid", "Match.com", "PlentyOfFish"]⟩),
  ("EA", ⟨"Electronic Arts Inc.", "ELECTRONIC ARTS", ["EA", "Origin", "Respawn Entertainment", "DICE", "BioWare"]⟩),
  ("TTWO", ⟨"Take-Two Interactive Software Inc.", "Rockstar Games", ["Take-Two Interactive", "Rockstar Games", "2K Games"]⟩),
  ("RBLX", ⟨"Roblox Corporation", "Roblox Corporation", ["Roblox"]⟩),
  ("TMUS", ⟨"T-Mobile US Inc.", "T-Mobile USA", ["T-Mobile", "Sprint"]⟩),
  ("CHTR", ⟨"Charter Communications Inc.", "Charter Communications", ["Spectrum"]⟩),
  ("CMCSA", ⟨"Comcast Corporation", "Comcast Corporation", ["Comcast", "NBCUniversal", "Xfinity", "Peacock TV"]⟩),
  ("ADP", ⟨"Automatic Data Processing Inc.", "ADP Inc.", ["ADP"]⟩),
  ("PAYX", ⟨"Paychex Inc.", "Paychex Inc.", ["Paychex"]⟩),
  ("PEP", ⟨"PepsiCo Inc.", "PepsiCo Inc.", ["Pepsi", "Frito-Lay", "Tropicana", "Quaker"]⟩),
  ("SBUX", ⟨"Starbucks Corporation", "Starbucks Coffee Company", ["Starbucks"]⟩),
  ("LULU", ⟨"lululemon athletica inc.", "lululemon athletica", ["Lululemon"]⟩),
  ("MAR", ⟨"Marriott International Inc.", "Marriott International", ["Marriott", "Ritz-Carlton", "Sheraton", "W Hotels"]⟩),
  ("HON", ⟨"Honeywell International Inc.", "Honeywell International Inc.", ["Honeywell"]⟩),
  ("MELI", ⟨"MercadoLibre Inc.", "MercadoLibre", ["MercadoLibre"]⟩),
  ("PDD", ⟨"PDD Holdings Inc.", "PDD Holdings", ["Temu", "Pinduoduo"]⟩),
  ("PLTR", ⟨"Palantir Technologies Inc.", "Palantir Technologies", ["Palantir"]⟩)]

/-- Python `symbol in NASDAQ_100_COMPANIES` / `NASDAQ_100_COMPANIES[symbol]`
combined: dictionary lookup on the (unique) keys. -/
def nasdaqLookup (symbol : String) : Option CompanyEntry :=
  (NASDAQ_100_COMPANIES.find? (fun p => p.1 == symbol)).map (·.2)

/-- `get_company_info` of `src/nasdaq_companies.py`: uppercases the symbol,
looks it up, and assembles the info dictionary (with `search_terms` being
the primary developer followed by the subsidiaries). -/
def get_company_info (symbol : String) : Option CompanyInfo :=
  let symbol := pyUpper symbol
  match nasdaqLookup symbol with
  | some info =>
      some { symbol := symbol
             company_name := info.company_name
             play_store_developer := info.play_store_developer
             subsidiaries := info.subsidiaries
             search_terms := info.play_store_developer :: info.subsidiaries }
  | none => none

/-- `search_apps_by_developer` of `src/app.py` (lines 41-72): filters the
raw search hits to those whose `developer` string equals the query
case-insensitively, building the app dictionaries in order; any raised
exception yields `[]`. -/
def search_apps_by_developer (developer_name : String)
    (searchOutcome : Except String (List RawApp)) : List AppListing :=
  match searchOutcome with
  | .error _ => []
  | .ok search_results =>
      (search_results.filter
          (fun a => pyLower a.developer == pyLower developer_name)).map
        (fun a => { appId := a.appId
                    title := a.title
                    developer := a.developer
                    score := a.score.getD 0
                    installs := a.installs.getD "0+" })

/-- The structured-review dictionary built at `src/app.py` lines 105-114
for a raw review whose `at` field holds `d`. -/
def structure_review (app_id : String) (app_title : Option String)
    (d : Date) (r : RawReview) : StructuredReview :=
  { app_id := app_id
    app_title := pyOrStr app_title app_id
    review_date := d
    score := r.score.getD 0
    review_text := r.content.getD ""
    reviewer_name := r.userName.getD "Anonymous"
    helpful_count := r.thumbsUpCount.getD 0
    review_id := r.reviewId.getD "" }

/-- `fetch_app_reviews` of `src/app.py` (lines 74-122): truncate the raw
result to the first 2000 items, keep the reviews whose date is present and
whose year equals `current_year`, and structure them; any raised exception
yields `[]`. -/
def fetch_app_reviews (current_year : Nat) (app_id : String)
    (app_title : Option String)
    (fetchOutcome : Except String (List RawReview)) : List StructuredReview :=
  match fetchOutcome with
  | .error _ => []
  | .ok app_reviews =>
      let limited_reviews := app_reviews.take 2000
      limited_reviews.filterMap (fun r =>
        match r.atDate with
        | none => none
        | some d =>
            if d.year = current_year then
              some (structure_review app_id app_title d r)
            else none)

/-- Adding the `company_symbol` and `developer_name` keys to a structured
review (`src/app.py` lines 152-154; `company_symbol or 'N/A'`). -/
def tag_review (company_symbol : Option String) (developer_name : String)
    (r : StructuredReview) : TaggedReview :=
  { app_id := r.app_id
    app_title := r.app_title
    review_date := r.review_date
    score := r.score
    review_text := r.review_text
    reviewer_name := r.reviewer_name
    helpful_count := r.helpful_count
    review_id := r.review_id
    company_symbol := pyOrStr company_symbol "N/A"
    developer_name := developer_name }

/-- The `all_reviews` list that `fetch_developer_reviews` accumulates over
the loop at `src/app.py` lines 145-156: the tagged reviews of every app of
the developer, in app order. -/
def collected_reviews (env : Env) (current_year : Nat)
    (developer_name : String) (company_symbol : Option String) :
    List TaggedReview :=
  let apps := search_apps_by_developer developer_name (env.search developer_name)
  apps.flatMap (fun a =>
    (fetch_app_reviews current_year a.appId (some a.title)
        (env.reviews_all a.appId)).map
      (tag_review company_symbol developer_name))

/-- `fetch_developer_reviews` of `src/app.py` (lines 124-159).  When no app
matches, the source executes `return []`.  Otherwise it accumulates
`all_reviews` over the apps — but the function body ends at line 159
without any `return` statement, so Python returns `None`: the accumulated
list is discarded.  `none` models that fall-through return value. -/
def fetch_developer_reviews (env : Env) (current_year : Nat)
    (developer_name : String) (company_symbol : Option String) :
    Option (List TaggedReview) :=
  let apps := search_apps_by_developer developer_name (env.search developer_name)
  if apps.isEmpty then
    some []
  else
    let _all_reviews := collected_reviews env current_year developer_name company_symbol
    none

/-- The first component of a `progress_queue` tuple. -/
inductive MsgType where
  | error
  | start
  | success
  | warning
  | csv_progress
  | csv_complete
deriving DecidableEq, Repr

/-- A `progress_queue` item `(msg_type, msg_symbol, message)`. -/
structure ProgressMsg where
  msgType : MsgType
  symbol : String
  message : String
deriving DecidableEq, Repr

/-- `fetch_company_reviews_worker` of `src/app.py` (lines 161-194), as the
pair (records put on `reviews_queue`, messages put on `progress_queue`, in
order).  `company_reviews` is truthy only when it is a non-empty list;
`fetch_developer_reviews` returns `some []` or `none`, so in practice the
warning branch is taken for every valid company. -/
def fetch_company_reviews_worker (env : Env) (current_year : Nat)
    (symbol : String) : List TaggedReview × List ProgressMsg :=
  match get_company_info symbol with
  | none =>
      ([], [⟨.error, symbol, "Company " ++ symbol ++ " not found"⟩])
  | some company_info =>
      let startMsg : ProgressMsg :=
        ⟨.start, symbol, "Starting " ++ company_info.company_name⟩
      let company_reviews :=
        fetch_developer_reviews env current_year
          company_info.play_store_developer (some symbol)
      match company_reviews with
      | some l =>
          if l.isEmpty then
            ([], [startMsg, ⟨.warning, symbol, "No reviews found for " ++ symbol⟩])
          else
            (l, [startMsg,
                 ⟨.success, symbol,
                  "Completed " ++ symbol ++ ": " ++ toString l.length ++ " reviews"⟩])
      | none =>
          ([], [startMsg, ⟨.warning, symbol, "No reviews found for " ++ symbol⟩])

/-- All progress messages produced over a run on `syms`, in symbol order
(the orchestrator drains every worker message before its summary loop
ends; membership and counts do not depend on the interleaving). -/
def all_progress (env : Env) (current_year : Nat) (syms : List String) :
    List ProgressMsg :=
  syms.flatMap (fun s => (fetch_company_reviews_worker env current_year s).2)

/-- All records put on `reviews_queue` over a run on `syms`. -/
def written_records (env : Env) (current_year : Nat) (syms : List String) :
    List TaggedReview :=
  syms.flatMap (fun s => (fetch_company_reviews_worker env current_year s).1)

/-- Is a message one of the per-unit outcome reports (`error`, `success`,
`warning`, i.e. Failed / Success / NoData)? -/
def isOutcomeMsg (m : ProgressMsg) : Bool :=
  m.msgType == .error || m.msgType == .success || m.msgType == .warning

/-- The per-unit outcomes of a run: the outcome messages among all
progress messages. -/
def unit_outcomes (env : Env) (current_year : Nat) (syms : List String) :
    List ProgressMsg :=
  (all_progress env current_year syms).filter isOutcomeMsg

/-- One step of the summary loop at `src/app.py` lines 295-299: `success`
appends to `successful_companies`, `error` and `warning` append to
`failed_companies`, every other type is only logged. -/
def classifyStep (acc : List String × List String) (m : ProgressMsg) :
    List String × List String :=
  match m.msgType with
  | .success => (acc.1 ++ [m.symbol], acc.2)
  | .error => (acc.1, acc.2 ++ [m.symbol])
  | .warning => (acc.1, acc.2 ++ [m.symbol])
  | _ => acc

/-- The summary loop over all drained progress messages:
`(successful_companies, failed_companies)`. -/
def classify (msgs : List ProgressMsg) : List String × List String :=
  msgs.foldl classifyStep ([], [])

/-- The fixed CSV column order (`src/app.py` lines 208-212). -/
def column_order : List String :=
  ["company_symbol", "developer_name", "app_id", "app_title",
   "review_date", "score", "review_text", "reviewer_name",
   "helpful_count", "review_id"]

/-- `datetime.strftime('%Y-%m-%d')`: zero-padded year-month-day. -/
def pad2 (n : Nat) : String :=
  if n < 10 then "0" ++ toString n else toString n

def pad4 (n : Nat) : String :=
  if n < 10 then "000" ++ toString n
  else if n < 100 then "00" ++ toString n
  else if n < 1000 then "0" ++ toString n
  else toString n

def format_date (d : Date) : String :=
  pad4 d.year ++ "-" ++ pad2 d.month ++ "-" ++ pad2 d.day

/-- The values of one CSV record row, in the writer's field order. -/
def record_row (r : TaggedReview) : List String :=
  [r.company_symbol, r.developer_name, r.app_id, r.app_title,
   format_date r.review_date, toString r.score, r.review_text,
   r.reviewer_name, toString r.helpful_count, r.review_id]

/-- The rows emitted by `csv_writer_worker` (`src/app.py` lines 196-236)
for a drained record sequence: the header once, first, then one row per
record in arrival order. -/
def csv_writer_rows (records : List TaggedReview) : List (List String) :=
  column_order :: records.map record_row

/-- `csv` module field escaping (QUOTE_MINIMAL): a field containing a
comma, quote, CR or LF is wrapped in quotes with inner quotes doubled. -/
def needs_quoting (f : String) : Bool :=
  f.data.any (fun c => c == ',' || c == '"' || c == '\n' || c == '\r')

def escape_field (f : String) : String :=
  if needs_quoting f then "\"" ++ f.replace "\"" "\"\"" ++ "\"" else f

/-- One serialized CSV row with the writer's default `\r\n` terminator. -/
def serialize_row (fields : List String) : String :=
  String.intercalate "," (fields.map escape_field) ++ "\r\n"

/-- The full CSV file content produced by the sink. -/
def csv_content (records : List TaggedReview) : String :=
  String.join ((csv_writer_rows records).map serialize_row)

/-- Universal-newline normalization (text-mode file reading): `\r\n` and
lone `\r` both become `\n`. -/
def normalize_newlines : List Char → List Char
  | '\r' :: '\n' :: rest => '\n' :: normalize_newlines rest
  | '\r' :: rest => '\n' :: normalize_newlines rest
  | c :: rest => c :: normalize_newlines rest
  | [] => []

/-- Python `sum(1 for line in f)`: the number of lines yielded by
text-mode iteration over the file content. -/
def count_lines (s : String) : Nat :=
  let cs := normalize_newlines s.data
  if cs.isEmpty then 0
  else cs.count '\n' + (if cs.getLast? == some '\n' then 0 else 1)

/-- `fetch_all_companies_parallel` of `src/app.py` (lines 241-331) run over
a symbol backlog `syms` (the source instantiates `syms` with the table
keys; `max_workers` only sizes the thread pool and does not affect which
records and outcomes are produced).  Returns `(successful_companies,
failed_companies, total_reviews)`; `total_reviews` is obtained by counting
the lines of the written CSV file and subtracting the header line. -/
def fetch_all_companies_parallel (env : Env) (current_year : Nat)
    (syms : List String) : List String × List String × Nat :=
  let msgs := all_progress env current_year syms
  let cls := classify msgs
  let total_reviews :=
    count_lines (csv_content (written_records env current_year syms)) - 1
  (cls.1, cls.2, total_reviews)

/-- The symbol backlog the source actually submits: the table keys. -/
def nasdaq_symbols : List String := NASDAQ_100_COMPANIES.map (·.1)

/-- Sum of the per-company record counts over the companies whose unit
reported a `success` outcome (the Success count is the length of the list
the worker pushed). -/
def success_count_sum (env : Env) (current_year : Nat)
    (syms : List String) : Nat :=
  ((syms.filter (fun s =>
      ((fetch_company_reviews_worker env current_year s).2).any
        (fun m => m.msgType == .success))).map
    (fun s => ((fetch_company_reviews_worker env current_year s).1).length)).sum

/-- The symbols of the `success` messages, in message order. -/
def successSyms (msgs : List ProgressMsg) : List String :=
  (msgs.filter (fun m => m.msgType == .success)).map (·.symbol)

/-- The symbols of the `error` and `warning` messages, in message order. -/
def failSyms (msgs : List ProgressMsg) : List String :=
  (msgs.filter (fun m => m.msgType == .error || m.msgType == .warning)).map
    (·.symbol)

section Lemmas

theorem char_toNat_ofNat (n : Nat) (h : n.isValidChar) :
    (Char.ofNat n).toNat = n := by
  unfold Char.ofNat
  rw [dif_pos h]
  rfl

theorem char_toUpper_toUpper (c : Char) :
    Char.toUpper (Char.toUpper c) = Char.toUpper c := by
  unfold Char.toUpper
  by_cases h : c.toNat ≥ 97 ∧ c.toNat ≤ 122
  · rw [if_pos h]
    have hv : Nat.isValidChar (c.toNat - 32) := Or.inl (by omega)
    have ht : (Char.ofNat (c.toNat - 32)).toNat = c.toNat - 32 :=
      char_toNat_ofNat _ hv
    rw [if_neg (by rw [ht]; omega)]
  · rw [if_neg h, if_neg h]

theorem pyUpper_pyUpper (s : String) : pyUpper (pyUpper s) = pyUpper s := by
  have hcomp : Char.toUpper ∘ Char.toUpper = Char.toUpper := by
    funext c
    exact char_toUpper_toUpper c
  simp only [pyUpper, List.map_map, hcomp]

/-- `fetch_developer_reviews` never produces a truthy value: it is `some
[]` when no app matched and `none` (the missing `return`) otherwise. -/
theorem fetch_developer_reviews_cases (env : Env) (cy : Nat)
    (dev : String) (cs : Option String) :
    fetch_developer_reviews env cy dev cs = some [] ∨
      fetch_developer_reviews env cy dev cs = none := by
  unfold fetch_developer_reviews
  by_cases h : (search_apps_by_developer dev (env.search dev)).isEmpty
  · simp [h]
  · simp [h]

/-- Closed form of the worker: an unknown symbol reports `error`; a known
symbol reports `start` then `warning`, and nothing is ever pushed on the
reviews queue (consequence of the missing `return` in
`fetch_developer_reviews`). -/
theorem worker_shape (env : Env) (cy : Nat) (s : String) :
    fetch_company_reviews_worker env cy s =
      match get_company_info s with
      | none => ([], [⟨.error, s, "Company " ++ s ++ " not found"⟩])
      | some ci =>
          ([], [⟨.start, s, "Starting " ++ ci.company_name⟩,
                ⟨.warning, s, "No reviews found for " ++ s⟩]) := by
  unfold fetch_company_reviews_worker
  cases hci : get_company_info s with
  | none => rfl
  | some ci =>
      simp only
      rcases fetch_developer_reviews_cases env cy ci.play_store_developer
          (some s) with h | h <;> simp [h]

theorem worker_pushed_nil (env : Env) (cy : Nat) (s : String) :
    (fetch_company_reviews_worker env cy s).1 = [] := by
  rw [worker_shape]
  cases get_company_info s <;> rfl

theorem worker_no_success (env : Env) (cy : Nat) (s : String) :
    ((fetch_company_reviews_worker env cy s).2).any
      (fun m => m.msgType == MsgType.success) = false := by
  rw [worker_shape]
  cases get_company_info s <;> rfl

theorem worker_outcome_msgs (env : Env) (cy : Nat) (s : String) :
    ((fetch_company_reviews_worker env cy s).2).filter isOutcomeMsg =
      match get_company_info s with
      | none => [⟨.error, s, "Company " ++ s ++ " not found"⟩]
      | some _ => [⟨.warning, s, "No reviews found for " ++ s⟩] := by
  rw [worker_shape]
  cases get_company_info s <;> rfl

theorem classify_foldl (msgs : List ProgressMsg)
    (acc : List String × List String) :
    msgs.foldl classifyStep acc =
      (acc.1 ++ successSyms msgs, acc.2 ++ failSyms msgs) := by
  induction msgs generalizing acc with
  | nil => simp [successSyms, failSyms]
  | cons m rest ih =>
      rw [List.foldl_cons, ih]
      cases hm : m.msgType <;>
        simp [classifyStep, successSyms, failSyms, hm, List.filter_cons]

theorem classify_eq (msgs : List ProgressMsg) :
    classify msgs = (successSyms msgs, failSyms msgs) := by
  rw [classify, classify_foldl]
  simp

theorem successSyms_append (a b : List ProgressMsg) :
    successSyms (a ++ b) = successSyms a ++ successSyms b := by
  simp [successSyms]

theorem failSyms_append (a b : List ProgressMsg) :
    failSyms (a ++ b) = failSyms a ++ failSyms b := by
  simp [failSyms]

/-- No run ever produces a `success` message (missing `return`). -/
theorem successSyms_all_progress (env : Env) (cy : Nat)
    (syms : List String) : successSyms (all_progress env cy syms) = [] := by
  induction syms with
  | nil => rfl
  | cons s rest ih =>
      rw [all_progress, List.flatMap_cons, ← all_progress,
        successSyms_append, ih, worker_shape]
      cases get_company_info s <;> rfl

/-- Every symbol lands in `failed_companies`, in backlog order: unknown
symbols via `error`, known ones via the `warning` that the missing
`return` forces. -/
theorem failSyms_all_progress (env : Env) (cy : Nat)
    (syms : List String) : failSyms (all_progress env cy syms) = syms := by
  induction syms with
  | nil => rfl
  | cons s rest ih =>
      rw [all_progress, List.flatMap_cons, ← all_progress,
        failSyms_append, ih, worker_shape]
      cases get_company_info s <;> rfl

theorem written_records_nil (env : Env) (cy : Nat) (syms : List String) :
    written_records env cy syms = [] := by
  induction syms with
  | nil => rfl
  | cons s rest ih =>
      rw [written_records, List.flatMap_cons, ← written_records, ih,
        worker_pushed_nil]
      rfl

theorem success_count_sum_zero (env : Env) (cy : Nat)
    (syms : List String) : success_count_sum env cy syms = 0 := by
  unfold success_count_sum
  have h : syms.filter (fun s =>
      ((fetch_company_reviews_worker env cy s).2).any
        (fun m => m.msgType == MsgType.success)) = [] := by
    apply List.filter_eq_nil_iff.mpr
    intro s _
    rw [worker_no_success]
    simp
  rw [h]
  rfl

theorem unit_outcomes_cons (env : Env) (cy : Nat) (s : String)
    (rest : List String) :
    unit_outcomes env cy (s :: rest) =
      ((fetch_company_reviews_worker env cy s).2).filter isOutcomeMsg ++
        unit_outcomes env cy rest := by
  simp [unit_outcomes, all_progress, List.filter_append]

theorem unit_outcomes_length (env : Env) (cy : Nat) (syms : List String) :
    (unit_outcomes env cy syms).length = syms.length := by
  induction syms with
  | nil => rfl
  | cons s rest ih =>
      rw [unit_outcomes_cons, worker_outcome_msgs]
      cases get_company_info s <;> simp [ih]

theorem unit_outcomes_error_count (env : Env) (cy : Nat)
    (syms : List String) :
    ((unit_outcomes env cy syms).filter
        (fun m => m.msgType == MsgType.error)).length =
      (syms.filter (fun s => (get_company_info s).isNone)).length := by
  induction syms with
  | nil => rfl
  | cons s rest ih =>
      rw [unit_outcomes_cons, worker_outcome_msgs, List.filter_append]
      cases hci : get_company_info s <;>
        simp [List.filter_cons, hci, ih]

theorem unit_outcomes_nonerror_count (env : Env) (cy : Nat)
    (syms : List String) :
    ((unit_outcomes env cy syms).filter
        (fun m => m.msgType == MsgType.success ||
          m.msgType == MsgType.warning)).length =
      (syms.filter (fun s => (get_company_info s).isSome)).length := by
  induction syms with
  | nil => rfl
  | cons s rest ih =>
      rw [unit_outcomes_cons, worker_outcome_msgs, List.filter_append]
      cases hci : get_company_info s <;>
        simp [List.filter_cons, hci, ih]

end Lemmas

section Scenarios

/-- Environment of the C1 scenario: the search collaborator returns one
app whose developer is exactly "Apple" (AAPL's primary developer) and the
review-fetch collaborator returns one review dated in the target year. -/
def envC1 : Env :=
  ⟨fun _ => .ok [⟨"com.apple.app", "Apple App", "Apple", none, none⟩],
   fun _ => .ok [⟨some ⟨2025, 3, 14⟩, some 5, some "Great", some "Bob",
                  some 2, some "r1"⟩]⟩

/-- Environment of the C2 scenario: the search collaborator succeeds but
returns no listing, so a valid company legitimately yields zero reviews. -/
def envC2 : Env := ⟨fun _ => .ok [], fun _ => .ok []⟩

end Scenarios

section Claims

/-- C1: for a known company whose developer resolves to an app with a
target-year review, the loop of `fetch_developer_reviews` does collect the
record, correctly tagged with the company symbol and developer name — but
the function has no `return` statement, so it returns `None`, the worker
pushes nothing onto the reviews queue, and it reports the NoData warning
instead of Success(1).  The code contradicts its own docstring
("Returns: List of all reviews from all developer's apps"). -/
theorem C1_worker_drops_collected_records :
    collected_reviews envC1 2025 "Apple" (some "AAPL") =
      [{ app_id := "com.apple.app", app_title := "Apple App",
         review_date := ⟨2025, 3, 14⟩, score := 5, review_text := "Great",
         reviewer_name := "Bob", helpful_count := 2, review_id := "r1",
         company_symbol := "AAPL", developer_name := "Apple" }] ∧
    fetch_developer_reviews envC1 2025 "Apple" (some "AAPL") = none ∧
    fetch_company_reviews_worker envC1 2025 "AAPL" =
      ([], [⟨.start, "AAPL", "Starting Apple Inc."⟩,
            ⟨.warning, "AAPL", "No reviews found for AAPL"⟩]) := by
  refine ⟨?_, ?_, ?_⟩ <;> rfl

/-- C2 counterexample: AAPL is a valid company and its run yields zero
matching reviews, so its unit reports the `warning` (NoData) outcome, not
`error` — yet the aggregate summary puts "AAPL" into `failed_companies`,
refuting "the aggregate summary never counts such a company among the
failed symbols". -/
theorem C2_counterexample_nodata_counted_failed :
    (unit_outcomes envC2 2025 ["AAPL"]).map (fun m => m.msgType) =
      [MsgType.warning] ∧
    (fetch_all_companies_parallel envC2 2025 ["AAPL"]).2.1 = ["AAPL"] ∧
    (fetch_all_companies_parallel envC2 2025 ["AAPL"]).1 = [] := by
  refine ⟨?_, ?_, ?_⟩ <;> rfl

/-- C2 amended: a valid company with zero matching reviews is reported
with the distinct `warning` (NoData) message, but the aggregate summary
appends both `error` and `warning` symbols to the failed list: the failed
list contains exactly the companies whose unit reported an error or a
warning, and the successful list exactly those that reported success. -/
theorem C2_amended_failed_is_error_or_warning (env : Env) (cy : Nat)
    (syms : List String) :
    (fetch_all_companies_parallel env cy syms).2.1 =
      ((all_progress env cy syms).filter
        (fun m => m.msgType == MsgType.error ||
          m.msgType == MsgType.warning)).map (fun m => m.symbol) ∧
    (fetch_all_companies_parallel env cy syms).1 =
      ((all_progress env cy syms).filter
        (fun m => m.msgType == MsgType.success)).map (fun m => m.symbol) := by
  constructor <;>
    simp [fetch_all_companies_parallel, classify_eq, successSyms, failSyms]

/-- C3: a run over any symbol backlog produces exactly one outcome message
per symbol — `error` (Failed) exactly for the unknown symbols, `success`
or `warning` (Success/NoData) exactly for the known ones — and every
submitted symbol lands in exactly one of the two summary lists (their
concatenation is a permutation of the backlog): no unit's outcome is
lost. -/
theorem C3_one_outcome_per_symbol (env : Env) (cy : Nat)
    (syms : List String) :
    (unit_outcomes env cy syms).length = syms.length ∧
    ((unit_outcomes env cy syms).filter
        (fun m => m.msgType == MsgType.error)).length =
      (syms.filter (fun s => (get_company_info s).isNone)).length ∧
    ((unit_outcomes env cy syms).filter
        (fun m => m.msgType == MsgType.success ||
          m.msgType == MsgType.warning)).length =
      (syms.filter (fun s => (get_company_info s).isSome)).length ∧
    ((fetch_all_companies_parallel env cy syms).1 ++
        (fetch_all_companies_parallel env cy syms).2.1).Perm syms := by
  refine ⟨unit_outcomes_length env cy syms,
    unit_outcomes_error_count env cy syms,
    unit_outcomes_nonerror_count env cy syms, ?_⟩
  have h1 : (fetch_all_companies_parallel env cy syms).1 = [] := by
    simp [fetch_all_companies_parallel, classify_eq,
      successSyms_all_progress]
  have h2 : (fetch_all_companies_parallel env cy syms).2.1 = syms := by
    simp [fetch_all_companies_parallel, classify_eq,
      failSyms_all_progress]
  rw [h1, h2, List.nil_append]

/-- The length of the raw sequence delivered by the review-fetch
collaborator (zero when the call raised). -/
def raw_count : Except String (List RawReview) → Nat
  | .error _ => 0
  | .ok l => l.length

/-- C4: `fetch_app_reviews` truncates the raw result to its first 2000
items and keeps only the reviews whose date year equals the target year,
so its output length is at most `min 2000 (input length)` and every
returned record's `review_date` year equals the target year. -/
theorem C4_cap_then_year_filter (cy : Nat) (aid : String)
    (atitle : Option String) (res : Except String (List RawReview)) :
    (fetch_app_reviews cy aid atitle res).length ≤ min 2000 (raw_count res) ∧
    (fetch_app_reviews cy aid atitle res).all
      (fun r => r.review_date.year == cy) = true := by
  cases res with
  | error e => exact ⟨by simp [fetch_app_reviews], by simp [fetch_app_reviews]⟩
  | ok l =>
      constructor
      · calc (fetch_app_reviews cy aid atitle (.ok l)).length
            ≤ (l.take 2000).length := List.length_filterMap_le _ _
          _ = min 2000 l.length := by simp
          _ = min 2000 (raw_count (.ok l)) := rfl
      · rw [List.all_eq_true]
        intro r hr
        simp only [fetch_app_reviews] at hr
        obtain ⟨a, _, hfa⟩ := List.mem_filterMap.mp hr
        cases hat : a.atDate with
        | none => rw [hat] at hfa; exact absurd hfa (by simp)
        | some d =>
            rw [hat] at hfa
            by_cases hy : d.year = cy
            · obtain rfl : structure_review aid atitle d a = r := by
                simpa [hy] using hfa
              simp [structure_review, hy]
            · simp [hy] at hfa

/-- C5: for a successful search, `search_apps_by_developer` returns
exactly the candidates whose developer string equals the query
case-insensitively, in candidate order; in particular querying "foo"
against developers ["Foo", "foo bar", "FOO"] selects exactly the first and
third. -/
theorem C5_exact_case_insensitive_match (name : String)
    (apps : List RawApp) :
    (search_apps_by_developer name (.ok apps)).map
        (fun l => (l.appId, l.title, l.developer)) =
      ((apps.filter
          (fun a => pyLower a.developer == pyLower name)).map
        (fun a => (a.appId, a.title, a.developer))) ∧
    (search_apps_by_developer name (.ok apps)).all
        (fun l => pyLower l.developer == pyLower name) = true ∧
    (search_apps_by_developer "foo" (.ok
        [⟨"a1", "T1", "Foo", none, none⟩,
         ⟨"a2", "T2", "foo bar", none, none⟩,
         ⟨"a3", "T3", "FOO", none, none⟩])).map (fun l => l.developer) =
      ["Foo", "FOO"] := by
  refine ⟨?_, ?_, by rfl⟩
  · simp [search_apps_by_developer, List.map_map]
  · rw [List.all_eq_true]
    intro l hl
    simp only [search_apps_by_developer, List.mem_map] at hl
    obtain ⟨a, ha, rfl⟩ := hl
    exact (List.mem_filter.mp ha).2

/-- C6: when the external collaborator raises (modelled as an `error`
outcome), `search_apps_by_developer` and `fetch_app_reviews` both return
the empty list: the exception never escapes their boundary. -/
theorem C6_collaborator_errors_yield_empty (name msg : String) (cy : Nat)
    (aid : String) (atitle : Option String) (msg2 : String) :
    search_apps_by_developer name (.error msg) = [] ∧
    fetch_app_reviews cy aid atitle (.error msg2) = [] :=
  ⟨rfl, rfl⟩

/-- C7: after pool and sink have finished, `total_reviews` equals the line
count of the written CSV minus the header (how the source computes it),
which equals the number of CSV rows minus the header row, and equals the
sum of the per-company record counts over the Success outcomes.  (With the
missing `return` in `fetch_developer_reviews` no records are ever pushed,
so every quantity is zero on every run.) -/
theorem C7_total_matches_rows_and_success_sum (env : Env) (cy : Nat)
    (syms : List String) :
    (fetch_all_companies_parallel env cy syms).2.2 =
      count_lines (csv_content (written_records env cy syms)) - 1 ∧
    (fetch_all_companies_parallel env cy syms).2.2 =
      (csv_writer_rows (written_records env cy syms)).length - 1 ∧
    (fetch_all_companies_parallel env cy syms).2.2 =
      success_count_sum env cy syms := by
  have hw : written_records env cy syms = [] := written_records_nil env cy syms
  have hone : count_lines (csv_content ([] : List TaggedReview)) = 1 := by rfl
  have htot : (fetch_all_companies_parallel env cy syms).2.2 = 0 := by
    simp [fetch_all_companies_parallel, hw, hone]
  refine ⟨rfl, ?_, ?_⟩
  · rw [htot, hw]; rfl
  · rw [htot, success_count_sum_zero]

/-- C8: the sink emits exactly one header row, first, and then one row per
drained record in order, every row using the fixed column order
`company_symbol, developer_name, app_id, app_title, review_date, score,
review_text, reviewer_name, helpful_count, review_id`. -/
theorem C8_header_once_fixed_column_order (records : List TaggedReview) :
    csv_writer_rows records =
      ["company_symbol", "developer_name", "app_id", "app_title",
       "review_date", "score", "review_text", "reviewer_name",
       "helpful_count", "review_id"] ::
        records.map (fun r =>
          [r.company_symbol, r.developer_name, r.app_id, r.app_title,
           format_date r.review_date, toString r.score, r.review_text,
           r.reviewer_name, toString r.helpful_count, r.review_id]) ∧
    (csv_writer_rows records).length = records.length + 1 :=
  ⟨rfl, by simp [csv_writer_rows]⟩

/-- C9: every raw review with its date field present — the five optional
fields each independently present (`some v`) or missing (`none`) — is
normalized field by field with `dict.get` default substitution: a missing
score becomes 0, missing text the empty string, missing reviewer name
"Anonymous", missing helpful count 0 and missing review id the empty
string, while a present field keeps its value.  (The mapping is a pure
function of its arguments in this embedding, hence deterministic and
side-effect-free.) -/
theorem C9_normalization_defaults (cy : Nat) (aid : String)
    (atitle : Option String) (m d : Nat) (sc : Option Int)
    (ct un : Option String) (tc : Option Int) (ri : Option String) :
    fetch_app_reviews cy aid atitle
        (.ok [{ atDate := some ⟨cy, m, d⟩, score := sc, content := ct,
                userName := un, thumbsUpCount := tc, reviewId := ri }]) =
      [{ app_id := aid, app_title := pyOrStr atitle aid,
         review_date := ⟨cy, m, d⟩, score := sc.getD 0,
         review_text := ct.getD "", reviewer_name := un.getD "Anonymous",
         helpful_count := tc.getD 0, review_id := ri.getD "" }] := by
  simp [fetch_app_reviews, structure_review]

/-- C10: company lookup is case-insensitive — `get_company_info s` equals
`get_company_info` of the uppercased input — and it returns, exactly when
the uppercased symbol is a table key, the record whose `symbol` is the
uppercased input and whose `search_terms` is the primary developer
followed by the subsidiary list, and `none` otherwise. -/
theorem C10_lookup_case_insensitive (s : String) :
    get_company_info s = get_company_info (pyUpper s) ∧
    get_company_info s = (nasdaqLookup (pyUpper s)).map (fun info =>
      { symbol := pyUpper s
        company_name := info.company_name
        play_store_developer := info.play_store_developer
        subsidiaries := info.subsidiaries
        search_terms :=
          info.play_store_developer :: info.subsidiaries }) := by
  constructor
  · simp [get_company_info, pyUpper_pyUpper]
  · cases h : nasdaqLookup (pyUpper s) <;> simp [get_company_info, h]

end Claims

end PlayReviews
